import Mathlib

/-
Verification of the request-resilience and caching helpers of
packages/netlify-cms-lib-util/src/API.ts: the backoff-controlled request
dispatcher (requestWithBackoff) and the read-through cache helpers
(readFile, readFileMetadata).
-/

namespace NetlifyAPI

/-- Model of an HTTP Response as the dispatcher observes it: a numeric
status code and the outcome of reading the body as text (`none` models a
body read that itself throws, the `.catch` branch on line 64). -/
structure Response where
  status : Nat
  bodyText : Option String
deriving DecidableEq

/-- Outcome of one call to the transport function (`requestFunction` /
`unsentRequest.performRequest`): either the call throws, or it returns a
response. -/
inductive TransportOutcome where
  | throws (msg : String)
  | returns (r : Response)
deriving DecidableEq

/-- Embeds the body of the `try` block of `requestWithBackoff`
(API.ts lines 61-67): a transport exception is an error with the
exception message; a returned response with status 429 becomes an error
whose message is the body text, or the literal "Too many requests" when
reading the body throws; any other response is returned unchanged. -/
def attemptOutcome : TransportOutcome → Except String Response
  | .throws msg => .error msg
  | .returns r =>
      if r.status = 429 then .error (r.bodyText.getD "Too many requests")
      else .ok r

/-- The API handle as `requestWithBackoff` reads it; only the request
decorator matters for the observable behaviour modelled here (the
`rateLimiter` field and the transport override are folded into the run
model below). -/
structure API (Req : Type) where
  buildRequest : Req → Req

/-- Observables of one run of `requestWithBackoff`: the final result
(error message or response), the number of transport attempts made, the
number of calls to `api.buildRequest`, the list of requests handed to the
transport in order, and the durations in milliseconds of the cooldown
timers installed, in order of installation. -/
structure RunResult (Req : Type) where
  result : Except String Response
  numAttempts : Nat
  buildCalls : Nat
  dispatched : List Req
  cooldownsMs : List Nat

/-- Embeds `requestWithBackoff` (API.ts lines 50-92) for a single caller
executing sequentially, the setting of the sequential-failure claims. In
that setting the `await api.rateLimiter.acquire()` on a retry resolves
only when the cooldown timer fires, and the timer callback clears
`api.rateLimiter` before the resumed continuation runs, so at every
`catch` the check `!api.rateLimiter` is true: each failure with
attempt <= 5 installs a fresh cooldown, `setTimeout(..., 1000 * timeout)`
with `timeout = attempt * attempt`, and recurses with `attempt + 1` on
the same original `req`; a failure with attempt > 5 rethrows the caught
error. Each invocation recomputes `builtRequest = api.buildRequest(req)`
(line 60) before dispatching. -/
def requestWithBackoff {Req : Type} (api : API Req) (transport : Nat → TransportOutcome)
    (req : Req) (attempt : Nat := 1) : RunResult Req :=
  let builtRequest := api.buildRequest req
  match attemptOutcome (transport attempt) with
  | .ok response => ⟨.ok response, 1, 1, [builtRequest], []⟩
  | .error err =>
      if h : attempt ≤ 5 then
        let timeout := attempt * attempt
        let rest := requestWithBackoff api transport req (attempt + 1)
        ⟨rest.result, rest.numAttempts + 1, rest.buildCalls + 1,
          builtRequest :: rest.dispatched, 1000 * timeout :: rest.cooldownsMs⟩
      else
        ⟨.error err, 1, 1, [builtRequest], []⟩
termination_by 6 - attempt
decreasing_by omega

/-- JavaScript value as stored in the localForage cache by this module:
a text string, a binary blob, or a file-metadata record
{author, updatedOn}. -/
inductive JSValue where
  | str (s : String)
  | blob (bytes : List Nat)
  | meta (author updatedOn : String)
deriving DecidableEq

/-- JavaScript truthiness of a cached value, as tested by `if (cached)`
(API.ts lines 102 and 127): a string is truthy iff nonempty; a Blob and a
metadata record are objects, hence always truthy. -/
def JSValue.truthy : JSValue → Bool
  | .str s => s ≠ ""
  | .blob _ => true
  | .meta _ _ => true

/-- The localForage store, modelled as an association list from string
keys to values; `getItem` returns the most recent binding. -/
abbrev Store := List (String × JSValue)

/-- Embeds `localForage.getItem(key)`: the value stored under `key`, or
`none` when the store holds nothing for it. -/
def getItem : Store → String → Option JSValue
  | [], _ => none
  | (k, v) :: rest, key => if k = key then some v else getItem rest key

/-- Embeds `localForage.setItem(key, value)`: binds `key` to `value`,
shadowing any previous binding. -/
def setItem (store : Store) (key : String) (v : JSValue) : Store :=
  (key, v) :: store

/-- Observables of one call to `readFile` or `readFileMetadata`: the
returned value, the store afterwards, and how many times `fetchContent` /
`fetchMetadata`, `localForage.getItem` and `localForage.setItem` were
invoked during the call. -/
structure ReadResult where
  value : JSValue
  store : Store
  fetchCalls : Nat
  getCalls : Nat
  setCalls : Nat
deriving DecidableEq

/-- Embeds API.ts line 100:
`const key = id ? (isText ? gh.id : gh.id.blob) : null;` —
`id` is tested for truthiness, so a null, undefined or empty id yields no
key. -/
def readFileKey (id : Option String) (isText : Bool) : Option String :=
  match id with
  | none => none
  | some i =>
      if i = "" then none
      else if isText then some ("gh." ++ i) else some ("gh." ++ i ++ ".blob")

/-- Embeds `readFile` (API.ts lines 94-111) with the fetched content
given as the value `fetchContent` resolves to. With no key the cache is
bypassed: fetch, do not consult or write the store. With a key, a truthy
cached value is returned as is; otherwise the content is fetched, written
under the key, and returned. -/
def readFile (id : Option String) (fetchContent : JSValue) (store : Store)
    (isText : Bool) : ReadResult :=
  match readFileKey id isText with
  | none => ⟨fetchContent, store, 1, 0, 0⟩
  | some k =>
      match getItem store k with
      | some v =>
          if v.truthy then ⟨v, store, 0, 1, 0⟩
          else ⟨fetchContent, setItem store k fetchContent, 1, 1, 1⟩
      | none => ⟨fetchContent, setItem store k fetchContent, 1, 1, 1⟩

/-- Embeds `getFileMetadataKey` (API.ts line 118). -/
def getFileMetadataKey (id : String) : String := "gh." ++ id ++ ".meta"

/-- Embeds `readFileMetadata` (API.ts lines 120-134): same
cache-or-fetch-and-store rule as `readFile`, always keyed (no id-absent
bypass). -/
def readFileMetadata (id : String) (fetchMetadata : JSValue) (store : Store) :
    ReadResult :=
  match getItem store (getFileMetadataKey id) with
  | some v =>
      if v.truthy then ⟨v, store, 0, 1, 0⟩
      else ⟨fetchMetadata, setItem store (getFileMetadataKey id) fetchMetadata, 1, 1, 1⟩
  | none => ⟨fetchMetadata, setItem store (getFileMetadataKey id) fetchMetadata, 1, 1, 1⟩

/-- Sample API handle over natural-number request descriptors whose
decorator is not the identity, so that decoration is observable. -/
def apiNat : API Nat := ⟨fun r => r + 1⟩

/-- Transport that throws on attempts 1 and 2 and succeeds afterwards. -/
def txTwoFailures : Nat → TransportOutcome :=
  fun n => if n ≤ 2 then .throws "network down" else .returns ⟨200, some "ok"⟩

/-- Transport that throws on attempt 1 and succeeds afterwards. -/
def txOneFailure : Nat → TransportOutcome :=
  fun n => if n ≤ 1 then .throws "boom" else .returns ⟨200, some "ok"⟩

/-- Transport that always throws. -/
def txAllFail : Nat → TransportOutcome := fun _ => .throws "down"

/-- Transport that always returns a 429 response with body "slow down". -/
def tx429 : Nat → TransportOutcome := fun _ => .returns ⟨429, some "slow down"⟩

/-- Unfolding equation: a successful attempt ends the run at once. -/
theorem requestWithBackoff_ok {Req : Type} (api : API Req)
    (transport : Nat → TransportOutcome) (req : Req) (attempt : Nat) (r : Response)
    (h : attemptOutcome (transport attempt) = .ok r) :
    requestWithBackoff api transport req attempt =
      ⟨.ok r, 1, 1, [api.buildRequest req], []⟩ := by
  rw [requestWithBackoff, h]

/-- Unfolding equation: a failed attempt with attempt <= 5 installs one
cooldown of 1000 * attempt ^ 2 milliseconds and retries. -/
theorem requestWithBackoff_retry {Req : Type} (api : API Req)
    (transport : Nat → TransportOutcome) (req : Req) (attempt : Nat) (e : String)
    (h : attemptOutcome (transport attempt) = .error e) (h5 : attempt ≤ 5) :
    requestWithBackoff api transport req attempt =
      ⟨(requestWithBackoff api transport req (attempt + 1)).result,
        (requestWithBackoff api transport req (attempt + 1)).numAttempts + 1,
        (requestWithBackoff api transport req (attempt + 1)).buildCalls + 1,
        api.buildRequest req :: (requestWithBackoff api transport req (attempt + 1)).dispatched,
        1000 * (attempt * attempt) ::
          (requestWithBackoff api transport req (attempt + 1)).cooldownsMs⟩ := by
  rw [requestWithBackoff, h]
  simp [h5]

/-- Unfolding equation: a failed attempt with attempt > 5 rethrows the
caught error, with no further attempt and no cooldown. -/
theorem requestWithBackoff_give_up {Req : Type} (api : API Req)
    (transport : Nat → TransportOutcome) (req : Req) (attempt : Nat) (e : String)
    (h : attemptOutcome (transport attempt) = .error e) (h5 : ¬ attempt ≤ 5) :
    requestWithBackoff api transport req attempt =
      ⟨.error e, 1, 1, [api.buildRequest req], []⟩ := by
  rw [requestWithBackoff, h]
  simp [h5]

/-- A run starting at attempt `a` whose first `k` attempts fail and whose
attempt `a + k` succeeds (with `a + k ≤ 6`) returns the successful
response after `k + 1` attempts and installs one cooldown per failure. -/
theorem requestWithBackoff_seq {Req : Type} (api : API Req)
    (transport : Nat → TransportOutcome) (req : Req) :
    ∀ (k a : Nat) (r : Response), a + k ≤ 6 →
      (∀ n, a ≤ n → n < a + k → ∃ e, attemptOutcome (transport n) = .error e) →
      attemptOutcome (transport (a + k)) = .ok r →
      (requestWithBackoff api transport req a).result = .ok r ∧
      (requestWithBackoff api transport req a).numAttempts = k + 1 ∧
      (requestWithBackoff api transport req a).cooldownsMs.length = k := by
  intro k
  induction k with
  | zero =>
      intro a r _ _ hok
      rw [requestWithBackoff_ok api transport req a r (by simpa using hok)]
      exact ⟨rfl, rfl, rfl⟩
  | succ k ih =>
      intro a r hle hfail hok
      obtain ⟨e, he⟩ := hfail a (Nat.le_refl a) (by omega)
      rw [requestWithBackoff_retry api transport req a e he (by omega)]
      have hrec := ih (a + 1) r (by omega)
        (fun n h1 h2 => hfail n (by omega) (by omega))
        (by have : a + 1 + k = a + (k + 1) := by omega
            rw [this]; exact hok)
      exact ⟨hrec.1, by simp [hrec.2.1], by simp [hrec.2.2]⟩

/-- A run from attempt 1 whose first six attempts all fail ends with the
error of the sixth attempt, after exactly six attempts, having installed
exactly the five cooldowns of attempts 1 through 5. -/
theorem requestWithBackoff_exhaust {Req : Type} (api : API Req)
    (transport : Nat → TransportOutcome) (req : Req) (e : Nat → String)
    (hfail : ∀ n, 1 ≤ n → n ≤ 6 → attemptOutcome (transport n) = .error (e n)) :
    requestWithBackoff api transport req 1 =
      ⟨.error (e 6), 6, 6, List.replicate 6 (api.buildRequest req),
        [1000, 4000, 9000, 16000, 25000]⟩ := by
  rw [requestWithBackoff_retry api transport req 1 (e 1) (hfail 1 (by omega) (by omega)) (by omega)]
  rw [requestWithBackoff_retry api transport req 2 (e 2) (hfail 2 (by omega) (by omega)) (by omega)]
  rw [requestWithBackoff_retry api transport req 3 (e 3) (hfail 3 (by omega) (by omega)) (by omega)]
  rw [requestWithBackoff_retry api transport req 4 (e 4) (hfail 4 (by omega) (by omega)) (by omega)]
  rw [requestWithBackoff_retry api transport req 5 (e 5) (hfail 5 (by omega) (by omega)) (by omega)]
  rw [requestWithBackoff_give_up api transport req 6 (e 6) (hfail 6 (by omega) (by omega)) (by omega)]
  simp [List.replicate]

/-- Every run calls `api.buildRequest` once per attempt, and every request
handed to the transport is `api.buildRequest req` for the original `req`. -/
theorem requestWithBackoff_decorates {Req : Type} (api : API Req)
    (transport : Nat → TransportOutcome) (req : Req) :
    ∀ (m a : Nat), 6 - a ≤ m →
      (requestWithBackoff api transport req a).buildCalls =
        (requestWithBackoff api transport req a).numAttempts ∧
      (requestWithBackoff api transport req a).dispatched =
        List.replicate (requestWithBackoff api transport req a).numAttempts
          (api.buildRequest req) := by
  intro m
  induction m with
  | zero =>
      intro a ha
      have h5 : ¬ a ≤ 5 := by omega
      cases h : attemptOutcome (transport a) with
      | ok r => rw [requestWithBackoff_ok api transport req a r h]; exact ⟨rfl, rfl⟩
      | error e => rw [requestWithBackoff_give_up api transport req a e h h5]; exact ⟨rfl, rfl⟩
  | succ m ih =>
      intro a _
      cases h : attemptOutcome (transport a) with
      | ok r => rw [requestWithBackoff_ok api transport req a r h]; exact ⟨rfl, rfl⟩
      | error e =>
          by_cases h5 : a ≤ 5
          · rw [requestWithBackoff_retry api transport req a e h h5]
            have hrec := ih (a + 1) (by omega)
            refine ⟨by simp [hrec.1], ?_⟩
            simp only [hrec.2, hrec.1]
            rw [List.replicate_succ]
          · rw [requestWithBackoff_give_up api transport req a e h h5]; exact ⟨rfl, rfl⟩

/-- C1 (counterexample): with a transport that fails on attempts 1 and 2
sequentially and then succeeds, the run resolves after 3 attempts but
installs TWO cooldown timers, not one: the timer that releases a cooldown
also clears `api.rateLimiter`, so each sequential failure installs a
fresh cooldown. -/
theorem claim_C1_counterexample :
    (requestWithBackoff apiNat txTwoFailures 0 1).result = .ok ⟨200, some "ok"⟩ ∧
    (requestWithBackoff apiNat txTwoFailures 0 1).numAttempts = 3 ∧
    (requestWithBackoff apiNat txTwoFailures 0 1).cooldownsMs = [1000, 4000] ∧
    (requestWithBackoff apiNat txTwoFailures 0 1).cooldownsMs.length ≠ 1 := by
  rw [requestWithBackoff_retry apiNat txTwoFailures 0 1 "network down" rfl (by omega)]
  rw [requestWithBackoff_retry apiNat txTwoFailures 0 2 "network down" rfl (by omega)]
  rw [requestWithBackoff_ok apiNat txTwoFailures 0 3 ⟨200, some "ok"⟩ rfl]
  refine ⟨rfl, rfl, by norm_num, by decide⟩

/-- C1 (amended): for a transport that fails exactly k times (k ≤ 4)
sequentially and then succeeds, `requestWithBackoff` resolves with the
successful response after k + 1 attempts, and exactly k cooldown
locks/timers are installed — one per failed attempt, since each
sequential failure finds the previous cooldown already expired and
cleared from the handle. -/
theorem claim_C1 {Req : Type} (api : API Req) (transport : Nat → TransportOutcome)
    (req : Req) (k : Nat) (r : Response) (hk : k ≤ 4)
    (hfail : ∀ n, 1 ≤ n → n ≤ k → ∃ e, attemptOutcome (transport n) = .error e)
    (hok : attemptOutcome (transport (k + 1)) = .ok r) :
    (requestWithBackoff api transport req 1).result = .ok r ∧
    (requestWithBackoff api transport req 1).numAttempts = k + 1 ∧
    (requestWithBackoff api transport req 1).cooldownsMs.length = k := by
  refine requestWithBackoff_seq api transport req k 1 r (by omega)
    (fun n h1 h2 => hfail n h1 (by omega)) ?_
  have h : 1 + k = k + 1 := by omega
  rw [h]
  exact hok

/-- C1 (witness): the amended claim at k = 2 with the concrete transport
`txTwoFailures`. -/
theorem claim_C1_witness :
    (requestWithBackoff apiNat txTwoFailures 0 1).result = .ok ⟨200, some "ok"⟩ ∧
    (requestWithBackoff apiNat txTwoFailures 0 1).numAttempts = 2 + 1 ∧
    (requestWithBackoff apiNat txTwoFailures 0 1).cooldownsMs.length = 2 := by
  exact claim_C1 apiNat txTwoFailures 0 2 ⟨200, some "ok"⟩ (by omega)
    (fun n h1 h2 => ⟨"network down", by interval_cases n <;> rfl⟩) rfl

/-- C2: for a transport that fails on 6 consecutive attempts,
`requestWithBackoff` raises the error of the 6th failure verbatim, makes
no 7th attempt, and installs cooldown timers only for the failures at
attempts 1 through 5 (durations 1s, 4s, 9s, 16s, 25s), none for the 6th
failure. -/
theorem claim_C2 {Req : Type} (api : API Req) (transport : Nat → TransportOutcome)
    (req : Req) (e : Nat → String)
    (hfail : ∀ n, 1 ≤ n → n ≤ 6 → attemptOutcome (transport n) = .error (e n)) :
    (requestWithBackoff api transport req 1).result = .error (e 6) ∧
    (requestWithBackoff api transport req 1).numAttempts = 6 ∧
    (requestWithBackoff api transport req 1).cooldownsMs =
      [1000, 4000, 9000, 16000, 25000] := by
  rw [requestWithBackoff_exhaust api transport req e hfail]
  exact ⟨rfl, rfl, rfl⟩

/-- C2 (witness): the claim at the concrete always-failing transport. -/
theorem claim_C2_witness :
    (requestWithBackoff apiNat txAllFail 0 1).result = .error "down" ∧
    (requestWithBackoff apiNat txAllFail 0 1).numAttempts = 6 ∧
    (requestWithBackoff apiNat txAllFail 0 1).cooldownsMs =
      [1000, 4000, 9000, 16000, 25000] := by
  exact claim_C2 apiNat txAllFail 0 (fun _ => "down") (fun n _ _ => rfl)

/-- C3: a response produced by the transport without raising enters the
throttling/error path if and only if its status is 429; any response
with another status (including 4xx and 5xx other than 429) is returned
to the caller unchanged. -/
theorem claim_C3 (r : Response) :
    ((∃ e, attemptOutcome (.returns r) = .error e) ↔ r.status = 429) ∧
    (r.status ≠ 429 → attemptOutcome (.returns r) = .ok r) := by
  constructor
  · constructor
    · rintro ⟨e, he⟩
      by_contra hne
      simp [attemptOutcome, hne] at he
    · intro h429
      exact ⟨r.bodyText.getD "Too many requests", by simp [attemptOutcome, h429]⟩
  · intro hne
    simp [attemptOutcome, hne]

/-- C3 (witness): a 500 response passes through unchanged; a 429
response becomes an error. -/
theorem claim_C3_witness :
    attemptOutcome (.returns ⟨500, some "oops"⟩) = .ok ⟨500, some "oops"⟩ ∧
    (∃ e, attemptOutcome (.returns ⟨429, some "x"⟩) = .error e) := by
  exact ⟨(claim_C3 ⟨500, some "oops"⟩).2 (by decide),
    ((claim_C3 ⟨429, some "x"⟩).1).2 rfl⟩

/-- C4: the error raised for a 429 response has the body text as its
message, the literal "Too many requests" when reading the body itself
fails; for a transport returning a 429 whose body reads "slow down" the
error `requestWithBackoff` raises has message "slow down". -/
theorem claim_C4 {Req : Type} (api : API Req) (req : Req) (r : Response)
    (h429 : r.status = 429) :
    attemptOutcome (.returns r) = .error (r.bodyText.getD "Too many requests") ∧
    attemptOutcome (.returns ⟨429, none⟩) = .error "Too many requests" ∧
    (requestWithBackoff api tx429 req 1).result = .error "slow down" := by
  refine ⟨by simp [attemptOutcome, h429], rfl, ?_⟩
  rw [requestWithBackoff_exhaust api tx429 req (fun _ => "slow down") (fun n _ _ => rfl)]

/-- C4 (witness): the claim at a concrete 429 response with body
"slow down". -/
theorem claim_C4_witness :
    attemptOutcome (.returns ⟨429, some "slow down"⟩) = .error "slow down" ∧
    attemptOutcome (.returns ⟨429, none⟩) = .error "Too many requests" ∧
    (requestWithBackoff apiNat tx429 0 1).result = .error "slow down" := by
  exact claim_C4 apiNat 0 ⟨429, some "slow down"⟩ rfl

/-- C5: the cooldown installed after a failure at attempt n (1 ≤ n ≤ 5)
is a timer of 1000 * n ^ 2 milliseconds, i.e. n ^ 2 seconds; over a full
run the backoff durations are exactly 1s, 4s, 9s, 16s, 25s. -/
theorem claim_C5 {Req : Type} (api : API Req) (transport : Nat → TransportOutcome)
    (req : Req) (n : Nat) (e : String) (h1 : 1 ≤ n) (h5 : n ≤ 5)
    (hf : attemptOutcome (transport n) = .error e) :
    (requestWithBackoff api transport req n).cooldownsMs.head? =
      some (1000 * (n * n)) ∧
    (∀ tr : Nat → TransportOutcome,
      (∀ m, 1 ≤ m → m ≤ 6 → ∃ em, attemptOutcome (tr m) = .error em) →
      (requestWithBackoff api tr req 1).cooldownsMs =
        [1000, 4000, 9000, 16000, 25000]) := by
  constructor
  · rw [requestWithBackoff_retry api transport req n e hf h5]
    rfl
  · intro tr htr
    choose em hem using htr
    rw [requestWithBackoff_exhaust api tr req
      (fun m => if h : 1 ≤ m ∧ m ≤ 6 then em m h.1 h.2 else "")
      (fun m hm1 hm6 => by
        show attemptOutcome (tr m) =
          Except.error (if h : 1 ≤ m ∧ m ≤ 6 then em m h.1 h.2 else "")
        have hd : (if h : 1 ≤ m ∧ m ≤ 6 then em m h.1 h.2 else "") = em m hm1 hm6 :=
          dif_pos ⟨hm1, hm6⟩
        rw [hd]
        exact hem m hm1 hm6)]

/-- C5 (witness): the claim at attempt 3 (9000 ms) with the concrete
always-failing transport, whose full run installs exactly the durations
1s, 4s, 9s, 16s, 25s. -/
theorem claim_C5_witness :
    (requestWithBackoff apiNat txAllFail 0 3).cooldownsMs.head? = some 9000 ∧
    (requestWithBackoff apiNat txAllFail 0 1).cooldownsMs =
      [1000, 4000, 9000, 16000, 25000] := by
  have h := claim_C5 apiNat txAllFail 0 3 "down" (by omega) (by omega) rfl
  exact ⟨h.1, h.2 txAllFail (fun m _ _ => ⟨"down", rfl⟩)⟩

/-- C6 (counterexample): with a decorator that is observable (apiNat adds
one) and a transport that fails once then succeeds, the run makes 2
attempts and calls `buildRequest` 2 times — the decorator IS applied anew
on each retry, so the claim that the first-attempt decoration is the only
one is false. -/
theorem claim_C6_counterexample :
    (requestWithBackoff apiNat txOneFailure 0 1).numAttempts = 2 ∧
    (requestWithBackoff apiNat txOneFailure 0 1).buildCalls = 2 ∧
    (requestWithBackoff apiNat txOneFailure 0 1).buildCalls ≠ 1 ∧
    (requestWithBackoff apiNat txOneFailure 0 1).dispatched = [1, 1] := by
  rw [requestWithBackoff_retry apiNat txOneFailure 0 1 "boom" rfl (by omega)]
  rw [requestWithBackoff_ok apiNat txOneFailure 0 2 ⟨200, some "ok"⟩ rfl]
  exact ⟨rfl, rfl, by decide, rfl⟩

/-- C6 (amended): on failure with attempt ≤ 5, `requestWithBackoff`
recurses with attempt + 1 passing the same original request descriptor,
and `buildRequest` is re-applied to that original descriptor on every
attempt: every dispatched request equals `buildRequest req` for the
original `req`, and `buildRequest` is called once per attempt (not once
per run). -/
theorem claim_C6 {Req : Type} (api : API Req) (transport : Nat → TransportOutcome)
    (req : Req) :
    (requestWithBackoff api transport req 1).dispatched =
      List.replicate (requestWithBackoff api transport req 1).numAttempts
        (api.buildRequest req) ∧
    (requestWithBackoff api transport req 1).buildCalls =
      (requestWithBackoff api transport req 1).numAttempts := by
  have h := requestWithBackoff_decorates api transport req 5 1 (by omega)
  exact ⟨h.2, h.1⟩

/-- C7: with an absent id (null or undefined), `readFile` always invokes
`fetchContent`, returns its result, and never touches the store: no
`getItem`, no `setItem`, store unchanged. -/
theorem claim_C7 (fetchContent : JSValue) (store : Store) (isText : Bool) :
    readFile none fetchContent store isText = ⟨fetchContent, store, 1, 0, 0⟩ := rfl

/-- C8 (counterexample): with `fetchContent` resolving to the empty
string, the second `readFile` call for the same id invokes
`fetchContent` again (the cached "" is falsy); and for the non-null but
empty id "", nothing is stored at all. -/
theorem claim_C8_counterexample :
    (readFile (some "abc123") (.str "")
      ((readFile (some "abc123") (.str "") [] true).store) true).fetchCalls = 1 ∧
    (readFile (some "") (.str "v") [] true).store = [] := ⟨rfl, rfl⟩

/-- C8 (amended): for every nonempty id and every fetch result that is
truthy (e.g. a nonempty string), `readFile` with a store holding no
value for key "gh.<id>" invokes `fetchContent` exactly once, stores the
result under "gh.<id>", and returns it; a subsequent call with the same
id returns the stored value verbatim without invoking `fetchContent`
again. -/
theorem claim_C8 (i : String) (hi : i ≠ "") (v w : JSValue) (hv : v.truthy = true)
    (store : Store) (hmiss : getItem store ("gh." ++ i) = none) :
    readFile (some i) v store true = ⟨v, setItem store ("gh." ++ i) v, 1, 1, 1⟩ ∧
    readFile (some i) w (setItem store ("gh." ++ i) v) true =
      ⟨v, setItem store ("gh." ++ i) v, 0, 1, 0⟩ := by
  constructor
  · simp [readFile, readFileKey, hi, hmiss]
  · have hget : getItem (setItem store ("gh." ++ i) v) ("gh." ++ i) = some v := by
      simp [getItem, setItem]
    simp [readFile, readFileKey, hi, hget, hv]

/-- C8 (witness): the amended claim at id "abc123" with a nonempty
fetched string on the empty store. -/
theorem claim_C8_witness :
    readFile (some "abc123") (.str "content") [] true =
      ⟨.str "content", setItem [] "gh.abc123" (.str "content"), 1, 1, 1⟩ ∧
    readFile (some "abc123") (.str "other")
        (setItem [] "gh.abc123" (.str "content")) true =
      ⟨.str "content", setItem [] "gh.abc123" (.str "content"), 0, 1, 0⟩ := by
  exact claim_C8 "abc123" (by decide) (.str "content") (.str "other") (by decide) [] rfl

/-- C9 (counterexample): the id "" is non-null yet `readFile` computes no
key for it at all — the key is not "gh.<id>" and nothing is stored — so
the claim quantified over every non-null id fails at id = "". -/
theorem claim_C9_counterexample :
    readFileKey (some "") true = none ∧
    readFileKey (some "") true ≠ some ("gh." ++ "") ∧
    (readFile (some "") (.str "x") [] false).store = [] := by
  exact ⟨rfl, by decide, rfl⟩

/-- C9 (amended): for every nonempty id the cache keys are bit-exact:
text mode uses "gh.<id>", binary mode uses the distinct "gh.<id>.blob",
and `readFileMetadata` uses "gh.<id>.meta" with the identical
cache-or-fetch-and-store rule. -/
theorem claim_C9 (i : String) (hi : i ≠ "") :
    readFileKey (some i) true = some ("gh." ++ i) ∧
    readFileKey (some i) false = some ("gh." ++ i ++ ".blob") ∧
    ("gh." ++ i : String) ≠ "gh." ++ i ++ ".blob" ∧
    getFileMetadataKey i = "gh." ++ i ++ ".meta" ∧
    (∀ store fm, getItem store ("gh." ++ i ++ ".meta") = none →
      readFileMetadata i fm store =
        ⟨fm, setItem store ("gh." ++ i ++ ".meta") fm, 1, 1, 1⟩) ∧
    (∀ store v fm, getItem store ("gh." ++ i ++ ".meta") = some v →
      v.truthy = true → readFileMetadata i fm store = ⟨v, store, 0, 1, 0⟩) := by
  refine ⟨by simp [readFileKey, hi], by simp [readFileKey, hi], ?_, rfl, ?_, ?_⟩
  · intro h
    have hlen := congrArg String.length h
    rw [String.length_append, String.length_append, String.length_append] at hlen
    have h1 : ("gh." : String).length = 3 := rfl
    have h2 : (".blob" : String).length = 5 := rfl
    rw [h1, h2] at hlen
    omega
  · intro store fm hm
    simp [readFileMetadata, getFileMetadataKey, hm]
  · intro store v fm hsome htruthy
    simp [readFileMetadata, getFileMetadataKey, hsome, htruthy]

/-- C9 (witness): the amended claim at id "abc123", with the miss case
on the empty store and the hit case on a store holding a metadata
record. -/
theorem claim_C9_witness :
    readFileKey (some "abc123") true = some "gh.abc123" ∧
    readFileKey (some "abc123") false = some "gh.abc123.blob" ∧
    ("gh.abc123" : String) ≠ "gh.abc123.blob" ∧
    getFileMetadataKey "abc123" = "gh.abc123.meta" ∧
    readFileMetadata "abc123" (.meta "a" "b") [] =
      ⟨.meta "a" "b", setItem [] "gh.abc123.meta" (.meta "a" "b"), 1, 1, 1⟩ ∧
    readFileMetadata "abc123" (.meta "a" "b")
        [("gh.abc123.meta", .meta "x" "y")] =
      ⟨.meta "x" "y", [("gh.abc123.meta", .meta "x" "y")], 0, 1, 0⟩ := by
  have h := claim_C9 "abc123" (by decide)
  exact ⟨h.1, h.2.1, h.2.2.1, h.2.2.2.1,
    h.2.2.2.2.1 [] (.meta "a" "b") rfl,
    h.2.2.2.2.2 [("gh.abc123.meta", .meta "x" "y")] (.meta "x" "y")
      (.meta "a" "b") rfl rfl⟩

/-- C10 (implicit): cache hits are decided by JavaScript truthiness, not
presence — if the value stored under the key is falsy (e.g. the empty
string), `readFile` (text and binary modes) and `readFileMetadata` treat
it as a miss on every call: the fetch function is invoked and the store
is rewritten on each invocation. -/
theorem claim_C10 (i : String) (hi : i ≠ "") (store : Store) (v : JSValue)
    (hv : v.truthy = false) :
    (∀ f, getItem store ("gh." ++ i) = some v →
      readFile (some i) f store true = ⟨f, setItem store ("gh." ++ i) f, 1, 1, 1⟩) ∧
    (∀ f, getItem store ("gh." ++ i ++ ".blob") = some v →
      readFile (some i) f store false =
        ⟨f, setItem store ("gh." ++ i ++ ".blob") f, 1, 1, 1⟩) ∧
    (∀ fm, getItem store ("gh." ++ i ++ ".meta") = some v →
      readFileMetadata i fm store =
        ⟨fm, setItem store ("gh." ++ i ++ ".meta") fm, 1, 1, 1⟩) := by
  refine ⟨?_, ?_, ?_⟩ <;> intro f hf <;>
    simp [readFile, readFileMetadata, readFileKey, getFileMetadataKey, hi, hf, hv]

/-- C10 (witness): a falsy cached empty string under the text key and
under the metadata key is refetched and overwritten. -/
theorem claim_C10_witness :
    readFile (some "abc123") (.str "new") [("gh.abc123", .str "")] true =
      ⟨.str "new", setItem [("gh.abc123", .str "")] "gh.abc123" (.str "new"),
        1, 1, 1⟩ ∧
    readFileMetadata "abc123" (.meta "a" "b") [("gh.abc123.meta", .str "")] =
      ⟨.meta "a" "b",
        setItem [("gh.abc123.meta", .str "")] "gh.abc123.meta" (.meta "a" "b"),
        1, 1, 1⟩ := by
  exact ⟨(claim_C10 "abc123" (by decide) [("gh.abc123", .str "")] (.str "") rfl).1
      (.str "new") rfl,
    (claim_C10 "abc123" (by decide) [("gh.abc123.meta", .str "")] (.str "") rfl).2.2
      (.meta "a" "b") rfl⟩

end NetlifyAPI
